import Mathlib

/-!
Verification of the AWS-Youtube-Analytics ingest Lambda
(`src/lambda_function.py`) against its natural-language specification.

The Python code is shallowly embedded: pandas cells become a tagged value
type `PValue`, a pandas `DataFrame` becomes an ordered list of named,
dtyped columns, the Glue catalog becomes an association-list state, and
`raise`/`except` become `Except`.  Library primitives from pandas and the
Python standard library that the repository calls (`pd.to_numeric`,
`Series.astype`, `pd.to_datetime`, `str.replace`, `urllib.parse.unquote_plus`)
are embedded with their documented semantics; each such embedding carries a
doc comment naming the primitive it models.
-/

/-- One pandas cell value.  `nan` is the floating NaN / missing-value
sentinel (also standing for NaT, the missing-datetime sentinel); `null` is
the Python `None` object, which an object-dtype column stores for an
explicit JSON `null`.  The two behave identically for numeric coercion but
differently under `astype(bool)` (`bool(float("nan")) = True`,
`bool(None) = False`) and under `astype(str)` (`"nan"` vs `"None"`).
`inf` is a floating infinity with its sign (produced by `to_numeric` from
literals such as `"inf"`); `float` carries the exact rational value of a
finite float. -/
inductive PValue where
  | nan
  | null
  | int (n : Int)
  | float (q : ℚ)
  | bool (b : Bool)
  | str (s : String)
  | time (t : Int)
  | inf (neg : Bool)
deriving DecidableEq, Repr

/-- A pandas column dtype, as far as the repository's code discriminates
them (`pd.api.types.is_integer_dtype` is true for both `int64` and the
nullable `Int64` produced by `astype("Int64")`). -/
inductive Dtype where
  | int64
  | nullableInt64
  | float64
  | boolean
  | datetime64
  | object
deriving DecidableEq, Repr

/-- A pandas Series: its dtype and its cell values in row order. -/
structure Column where
  dtype : Dtype
  values : List PValue
deriving DecidableEq, Repr

/-- A pandas DataFrame: named columns in their positional order. -/
structure DataFrame where
  cols : List (String × Column)
deriving DecidableEq, Repr

/-- `column in df.columns` / `df[column]` read access: first column with
the given name, if any. -/
def getCol (df : DataFrame) (name : String) : Option Column :=
  match df.cols.find? (fun p => p.1 == name) with
  | some p => some p.2
  | none => none

/-- `df[column] = series` on an existing column: replace the named
column's contents in place, keeping the positional order. -/
def setCol (df : DataFrame) (name : String) (c : Column) : DataFrame :=
  ⟨df.cols.map (fun p => if p.1 == name then (p.1, c) else p)⟩

/-- Decimal digits of the fractional part of a nonnegative rational,
truncated to the given fuel; models the repr of a float whose value is
exactly decimally representable (the only case the code ever prints). -/
def fracDigitsAux : Nat → ℚ → String
  | 0, _ => ""
  | fuel + 1, q =>
    if q = 0 then ""
    else
      let q10 := q * 10
      let d := ⌊q10⌋
      toString d ++ fracDigitsAux fuel (q10 - d)

/-- Models Python's `str(float)` for decimally-representable values:
`str(2.0) = "2.0"`, `str(1.5) = "1.5"`. -/
def floatRepr (q : ℚ) : String :=
  let sign := if q < 0 then "-" else ""
  let aq := |q|
  let ip := ⌊aq⌋
  let fr := aq - ip
  if fr = 0 then sign ++ toString ip ++ ".0"
  else sign ++ toString ip ++ "." ++ fracDigitsAux 17 fr

/-- Parse an unbroken run of decimal digits; `none` when empty or when a
non-digit appears. -/
def digitsVal (cs : List Char) : Option Nat :=
  if cs.isEmpty then none
  else
    cs.foldl
      (fun acc c =>
        match acc with
        | some n => if c.isDigit then some (10 * n + (c.toNat - 48)) else none
        | none => none)
      (some 0)

/-- Split a char list at the first `'.'`, if any. -/
def splitDot : List Char → Option (List Char × List Char)
  | [] => none
  | '.' :: rest => some ([], rest)
  | c :: rest =>
    match splitDot rest with
    | some (l, r) => some (c :: l, r)
    | none => none

/-- An optional leading sign. -/
def parseSign : List Char → (Bool × List Char)
  | '-' :: rest => (true, rest)
  | '+' :: rest => (false, rest)
  | cs => (false, cs)

/-- Split a char list at the first `'e'` or `'E'`, if any. -/
def splitExpChar : List Char → Option (List Char × List Char)
  | [] => none
  | 'e' :: rest => some ([], rest)
  | 'E' :: rest => some ([], rest)
  | c :: rest =>
    match splitExpChar rest with
    | some (l, r) => some (c :: l, r)
    | none => none

/-- Parse an unsigned mantissa — `digits`, `digits.digits`, `.digits` or
`digits.` — returning its digits read as one integer, its count of
fraction digits, and whether it was a plain integer literal (no dot). -/
def parseMantissa (cs : List Char) : Option (Nat × Nat × Bool) :=
  match splitDot cs with
  | none =>
    match digitsVal cs with
    | some n => some (n, 0, true)
    | none => none
  | some (ipart, fpart) =>
    if ipart.isEmpty && fpart.isEmpty then none
    else if (ipart.all Char.isDigit) && (fpart.all Char.isDigit) then
      some ((digitsVal ipart).getD 0 * 10 ^ fpart.length + (digitsVal fpart).getD 0,
        fpart.length, false)
    else none

/-- Parse a signed exponent part (after the `e`/`E`). -/
def parseExpPart (cs : List Char) : Option Int :=
  let sgn := parseSign cs
  match digitsVal sgn.2 with
  | some n => some (if sgn.1 then -(n : Int) else (n : Int))
  | none => none

/-- Whether an integer lies in the signed 64-bit range
`[-2^63, 2^63 - 1]`. -/
def inInt64Range (n : Int) : Bool :=
  decide (-9223372036854775808 ≤ n) && decide (n ≤ 9223372036854775807)

/-- Models the numeric-literal parsing performed by `pd.to_numeric` on a
string cell.  Surrounding whitespace is stripped; an optional sign is
followed by an integer literal, a decimal-point literal, a
scientific-notation literal (`1e-1`, `2E3`), or an infinity literal
(`inf` / `infinity`, case-insensitive).  A plain integer literal within
the signed 64-bit range parses to an integer (pandas' int64 path); one
outside it follows pandas' uint64/float64 fallback and is kept as a
float value; decimal-point and exponent literals are float values.
Anything else fails, and `to_numeric(errors="coerce")` turns the failure
into NaN — which matches pandas, which likewise rejects underscore
separators and hex literals. -/
def parseNumericChars (cs : List Char) : Option PValue :=
  let t := ((cs.dropWhile Char.isWhitespace).reverse.dropWhile Char.isWhitespace).reverse
  let sgn := parseSign t
  let neg := sgn.1
  let body := sgn.2
  let low := body.map Char.toLower
  if low = "inf".toList || low = "infinity".toList then some (.inf neg)
  else
    match splitExpChar body with
    | none =>
      match parseMantissa body with
      | none => none
      | some (m0, k, isIntLit) =>
        let m : Int := if neg then -(m0 : Int) else (m0 : Int)
        if isIntLit then
          if inInt64Range m then some (.int m)
          else some (.float (mkRat m 1))
        else some (.float (mkRat m (10 ^ k)))
    | some (mantPart, expPart) =>
      match parseMantissa mantPart, parseExpPart expPart with
      | some (m0, k, _), some e =>
        let m : Int := if neg then -(m0 : Int) else (m0 : Int)
        some (.float
          (if 0 ≤ e then mkRat (m * ((10 ^ e.toNat : Nat) : Int)) (10 ^ k)
           else mkRat m (10 ^ (k + e.natAbs))))
      | _, _ => none

/-- Models `pd.to_numeric(series, errors="coerce")` on one cell: numbers
pass through, `None`/NaN give NaN, booleans coerce to 0/1, datetimes to
their integer epoch value, and a string is parsed as a numeric literal
with failures coerced to NaN. -/
def pyToNumericCell : PValue → PValue
  | .nan => .nan
  | .null => .nan
  | .int n => .int n
  | .float q => .float q
  | .bool b => .int (if b then 1 else 0)
  | .str s =>
    match parseNumericChars s.toList with
    | some v => v
    | none => .nan
  | .time t => .int t
  | .inf s => .inf s

/-- Models `series.astype("Int64")` on one post-`to_numeric` cell: NaN
becomes the nullable-integer missing value, and a numeric value is
accepted only when it is an integral value inside the signed 64-bit
range — a nonzero fractional part, a magnitude beyond int64 (as produced
by pandas' uint64/float64 fallback for large literals), or an infinity
raises `TypeError: cannot safely cast non-equivalent float64 to int64`,
aborting the whole batch. -/
def astypeInt64Cell : PValue → Except String PValue
  | .nan => .ok .nan
  | .null => .ok .nan
  | .int n =>
    if inInt64Range n then .ok (.int n)
    else .error "cannot safely cast non-equivalent float64 to int64"
  | .float q =>
    if q.den == 1 && inInt64Range q.num then .ok (.int q.num)
    else .error "cannot safely cast non-equivalent float64 to int64"
  | .inf _ => .error "cannot safely cast non-equivalent float64 to int64"
  | v => .ok v

/-- Models `series.astype(float)` on one post-`to_numeric` cell. -/
def astypeFloatCell : PValue → PValue
  | .nan => .nan
  | .null => .nan
  | .int n => .float (mkRat n 1)
  | .float q => .float q
  | v => v

/-- Models `series.astype(bool)` on one cell: Python truthiness.  Note
`bool(float("nan")) = True` while `bool(None) = False`; no input ever
produces a missing output. -/
def pyBoolCell (v : PValue) : PValue :=
  .bool
    (match v with
     | .nan => true
     | .null => false
     | .int n => n != 0
     | .float q => q.num != 0
     | .bool b => b
     | .str s => s != ""
     | .time _ => true
     | .inf _ => true)

/-- Models `str(epoch)` for a datetime cell (exact rendering is never
compared by the repository). -/
def timeRepr (t : Int) : String := toString t

/-- Models `series.astype(str)` on one cell: every value, missing
sentinels included, becomes its Python textual representation
(`str(float("nan")) = "nan"`, `str(None) = "None"`); the result is never
missing. -/
def pyStrCell : PValue → PValue
  | .nan => .str "nan"
  | .null => .str "None"
  | .int n => .str (toString n)
  | .float q => .str (floatRepr q)
  | .bool b => .str (if b then "True" else "False")
  | .str s => .str s
  | .time t => .str (timeRepr t)
  | .inf neg => .str (if neg then "-inf" else "inf")

/-- Models the date-literal parsing of `pd.to_datetime` on a string cell
for ISO `YYYY-MM-DD` literals, encoding the calendar date as an abstract
integer; other textual layouts are unmodeled and fail. -/
def parseDateChars (cs : List Char) : Option Int :=
  match cs with
  | [y1, y2, y3, y4, '-', m1, m2, '-', d1, d2] =>
    if [y1, y2, y3, y4, m1, m2, d1, d2].all Char.isDigit then
      match digitsVal [y1, y2, y3, y4], digitsVal [m1, m2], digitsVal [d1, d2] with
      | some y, some m, some d => some ((y : Int) * 10000 + (m : Int) * 100 + (d : Int))
      | _, _, _ => none
    else none
  | _ => none

/-- Models `pd.to_datetime(series, errors="coerce")` on one cell: every
parse failure, and every missing input, coerces to NaT (represented by
`nan`); no cell ever raises. -/
def pyToDatetimeCell : PValue → PValue
  | .nan => .nan
  | .null => .nan
  | .time t => .time t
  | .int n => .time n
  | .float q => if q.den = 1 then .time q.num else .nan
  | .bool _ => .nan
  | .inf _ => .nan
  | .str s =>
    match parseDateChars s.toList with
    | some t => .time t
    | none => .nan

/-- Errors that Python code in `lambda_function.py` can raise or observe. -/
inductive PyErr where
  | entityNotFound
  | alreadyExists
  | typeError (msg : String)
  | ioError (msg : String)
  | indexError
deriving DecidableEq, Repr

/-- `series.astype("Int64")` over a whole column: the cell-level cast,
with the first unsafe-cast `TypeError` aborting the conversion. -/
def astypeInt64List : List PValue → Except String (List PValue)
  | [] => .ok []
  | v :: rest =>
    match astypeInt64Cell v with
    | .ok w =>
      match astypeInt64List rest with
      | .ok ws => .ok (w :: ws)
      | .error e => .error e
    | .error e => .error e

/-- One pass of the `for column, dtype in glue_schema.items()` body of
`cast_dataframe_to_glue_schema` (src/lambda_function.py lines 33–44): if
the named column is present, rewrite it according to the Glue type string;
a type outside the five handled ones leaves the column untouched.  Only
the `bigint` branch can fail (unsafe float→Int64 cast). -/
def castColumn (df : DataFrame) (column : String) (dtype : String) :
    Except PyErr DataFrame :=
  match getCol df column with
  | none => .ok df
  | some col =>
    if dtype = "bigint" then
      match astypeInt64List (col.values.map pyToNumericCell) with
      | .ok vs => .ok (setCol df column ⟨.nullableInt64, vs⟩)
      | .error m => .error (.typeError m)
    else if dtype = "double" then
      .ok (setCol df column ⟨.float64, (col.values.map pyToNumericCell).map astypeFloatCell⟩)
    else if dtype = "boolean" then
      .ok (setCol df column ⟨.boolean, col.values.map pyBoolCell⟩)
    else if dtype = "string" then
      .ok (setCol df column ⟨.object, col.values.map pyStrCell⟩)
    else if dtype = "timestamp" then
      .ok (setCol df column ⟨.datetime64, col.values.map pyToDatetimeCell⟩)
    else
      .ok df

/-- `cast_dataframe_to_glue_schema(df, glue_schema)`
(src/lambda_function.py lines 29–45): fold the per-column cast over the
schema entries in their dict-insertion order; the first raised `TypeError`
aborts the whole call. -/
def cast_dataframe_to_glue_schema (df : DataFrame)
    (glue_schema : List (String × String)) : Except PyErr DataFrame :=
  match glue_schema with
  | [] => .ok df
  | (column, dtype) :: rest =>
    match castColumn df column dtype with
    | .ok df2 => cast_dataframe_to_glue_schema df2 rest
    | .error e => .error e

/-- The dtype-to-Glue-type table of `infer_glue_schema_from_dataframe`
(src/lambda_function.py lines 52–62): `is_integer_dtype` holds for both
`int64` and the nullable `Int64`. -/
def inferGlueType : Dtype → String
  | .int64 => "int"
  | .nullableInt64 => "int"
  | .float64 => "double"
  | .boolean => "boolean"
  | .datetime64 => "timestamp"
  | .object => "string"

/-- `infer_glue_schema_from_dataframe(df)` (src/lambda_function.py lines
47–66): one `(Name, Type)` entry per column, in column order. -/
def infer_glue_schema_from_dataframe (df : DataFrame) : List (String × String) :=
  df.cols.map (fun p => (p.1, inferGlueType p.2.dtype))

/-- A registered Glue table as the code reads and writes it: its ordered
`StorageDescriptor.Columns` as `(Name, Type)` pairs, and its storage
location (the format/compression fields of `TableInput` are constants in
the code and carry no decision logic). -/
structure CatalogTable where
  columns : List (String × String)
  location : String
deriving DecidableEq, Repr

/-- The Glue catalog: tables keyed by `(database, table)`. -/
abbrev CatalogState := List ((String × String) × CatalogTable)

/-- `glue_client.get_table(DatabaseName=db, Name=tbl)`: the registered
table, if any. -/
def lookupTable (st : CatalogState) (db tbl : String) : Option CatalogTable :=
  match st.find? (fun p => p.1.1 == db && p.1.2 == tbl) with
  | some p => some p.2
  | none => none

/-- `get_glue_table_schema(database_name, table_name)`
(src/lambda_function.py lines 17–27): return the table's columns as a
name→type dict (insertion-ordered pairs); `EntityNotFoundException` is
printed and re-raised. -/
def get_glue_table_schema (st : CatalogState) (database_name table_name : String) :
    Except PyErr (List (String × String)) :=
  match lookupTable st database_name table_name with
  | some t => .ok t.columns
  | none => .error .entityNotFound

/-- `create_glue_table_if_not_exists(database_name, table_name,
s3_location, glue_schema)` (src/lambda_function.py lines 68–96).  The
function makes two separate service calls — `get_table`, then
`create_table` — so it is embedded over two catalog snapshots: the state
each call observes.  A concurrent registration between the calls makes
`create_table` raise `AlreadyExistsException`, which the code does not
catch.  Within one single-threaded invocation the two snapshots coincide. -/
def create_glue_table_if_not_exists (checkState createState : CatalogState)
    (database_name table_name s3_location : String)
    (glue_schema : List (String × String)) : Except PyErr CatalogState :=
  match lookupTable checkState database_name table_name with
  | some _ => .ok createState
  | none =>
    match lookupTable createState database_name table_name with
    | some _ => .error .alreadyExists
    | none =>
      .ok (((database_name, table_name), ⟨glue_schema, s3_location⟩) :: createState)

/-- Embeds `key.replace(".json", ".parquet")` (src/lambda_function.py
line 133), specialised to its literal arguments: Python `str.replace`
rewrites every non-overlapping occurrence, scanning left to right and
resuming after each replacement. -/
def replaceJsonChars : List Char → List Char
  | '.' :: 'j' :: 's' :: 'o' :: 'n' :: rest => '.' :: 'p' :: 'a' :: 'r' :: 'q' :: 'u' :: 'e' :: 't' :: replaceJsonChars rest
  | c :: rest => c :: replaceJsonChars rest
  | [] => []

/-- String-level wrapper for `key.replace(".json", ".parquet")`. -/
def pyReplaceJsonParquet (s : String) : String := ⟨replaceJsonChars s.toList⟩

/-- Whether `".json"` occurs anywhere in the char list (the condition
under which Python's `replace` rewrites something). -/
def containsJson : List Char → Bool
  | '.' :: 'j' :: 's' :: 'o' :: 'n' :: _ => true
  | _ :: rest => containsJson rest
  | [] => false

/-- Hex digit value, for percent-decoding. -/
def hexVal (c : Char) : Option Nat :=
  if c.isDigit then some (c.toNat - 48)
  else if 'a' ≤ c && c ≤ 'f' then some (c.toNat - 87)
  else if 'A' ≤ c && c ≤ 'F' then some (c.toNat - 55)
  else none

/-- Models `urllib.parse.unquote_plus(key, encoding="utf-8")`
(src/lambda_function.py line 100) at the single-byte level: `+` becomes a
space, `%XY` with hex digits becomes the character of that code, anything
else passes through (multi-byte UTF-8 percent sequences are not exercised
by any claim and are left unmodeled). -/
def unquotePlusChars : List Char → List Char
  | [] => []
  | '+' :: rest => ' ' :: unquotePlusChars rest
  | '%' :: a :: b :: rest =>
    match hexVal a, hexVal b with
    | some x, some y => Char.ofNat (16 * x + y) :: unquotePlusChars rest
    | _, _ => '%' :: unquotePlusChars (a :: b :: rest)
  | c :: rest => c :: unquotePlusChars rest

/-- String-level `urllib.parse.unquote_plus`. -/
def unquote_plus (s : String) : String := ⟨unquotePlusChars s.toList⟩

/-- The environment variables read at module scope
(src/lambda_function.py lines 12–15). -/
structure Env where
  s3_cleansed_layer : String
  glue_catalog_db_name : String
  glue_catalog_table_name : String
  write_data_operation : String
deriving DecidableEq, Repr

/-- One entry of the triggering notification's `Records` list, reduced to
the two fields the handler reads: `['s3']['bucket']['name']` and the
URL-escaped `['s3']['object']['key']`. -/
structure S3Record where
  bucket : String
  key : String
deriving DecidableEq, Repr

/-- The triggering notification event. -/
structure S3Event where
  records : List S3Record
deriving DecidableEq, Repr

/-- The value returned by a successful invocation
(src/lambda_function.py lines 140–143). -/
structure HandlerResult where
  statusCode : Nat
  body : String
deriving DecidableEq, Repr

/-- One successful `s3_client.put_object` call: destination bucket, key,
and the batch serialized into the uploaded Parquet body. -/
structure S3Put where
  bucket : String
  key : String
  body : DataFrame
deriving DecidableEq, Repr

/-- The external collaborators of one invocation: the object store's
response to `get_object`, the pandas JSON load-and-flatten of the fetched
bytes (`pd.read_json` + `pd.json_normalize(df_raw["items"])`, library
calls on lines 108–111 whose outcome is data to this core), the Glue
catalog state, and the outcome of the destination `put_object`. -/
structure World where
  getObject : String → String → Except PyErr String
  readAndNormalize : String → Except PyErr DataFrame
  catalog : CatalogState
  putObject : String → String → Except PyErr Unit

/-- Everything one invocation did: its returned value or re-raised
exception, the successful destination writes, the error-path log lines of
the outer `except` block, and the catalog state it left behind. -/
structure Outcome where
  result : Except PyErr HandlerResult
  puts : List S3Put
  logs : List String
  catalog : CatalogState

/-- `print(e)` rendering of an exception. -/
def errRepr : PyErr → String
  | .entityNotFound => "EntityNotFoundException"
  | .alreadyExists => "AlreadyExistsException"
  | .typeError m => "TypeError: " ++ m
  | .ioError m => m
  | .indexError => "IndexError: list index out of range"

/-- The outer `except Exception` block (src/lambda_function.py lines
145–148): log the exception and the bucket/key context, then re-raise. -/
def handlerFail (bucket key : String) (st : CatalogState) (e : PyErr) : Outcome :=
  ⟨.error e, [],
   [errRepr e, "Error processing object " ++ key ++ " from bucket " ++ bucket ++ "."],
   st⟩

/-- `lambda_handler(event, context)` (src/lambda_function.py lines
98–148).  Lines 99–100 index `event["Records"][0]` outside the `try`
block, so an empty record list raises uncaught and unlogged.  Inside the
`try`: fetch and flatten; then the inner `try` fetches the catalog schema
and casts against it, while its `except EntityNotFoundException` arm
infers a schema and registers the table WITHOUT casting; serialize the
resulting frame and `put_object` it under the source key with every
`".json"` rewritten to `".parquet"`. -/
def lambda_handler (env : Env) (w : World) (event : S3Event) : Outcome :=
  match event.records with
  | [] => ⟨.error .indexError, [], [], w.catalog⟩
  | rec0 :: _ =>
    let bucket := rec0.bucket
    let key := unquote_plus rec0.key
    match w.getObject bucket key with
    | .error e => handlerFail bucket key w.catalog e
    | .ok content =>
      match w.readAndNormalize content with
      | .error e => handlerFail bucket key w.catalog e
      | .ok df_step_1 =>
        let resolved : Except PyErr (DataFrame × CatalogState) :=
          match get_glue_table_schema w.catalog env.glue_catalog_db_name
              env.glue_catalog_table_name with
          | .ok glue_schema =>
            match cast_dataframe_to_glue_schema df_step_1 glue_schema with
            | .ok df2 => .ok (df2, w.catalog)
            | .error e => .error e
          | .error .entityNotFound =>
            match create_glue_table_if_not_exists w.catalog w.catalog
                env.glue_catalog_db_name env.glue_catalog_table_name
                ("s3://" ++ env.s3_cleansed_layer ++ "/")
                (infer_glue_schema_from_dataframe df_step_1) with
            | .ok st => .ok (df_step_1, st)
            | .error e => .error e
          | .error e => .error e
        match resolved with
        | .error e => handlerFail bucket key w.catalog e
        | .ok (df_final, catalog2) =>
          let s3_key := pyReplaceJsonParquet key
          match w.putObject env.s3_cleansed_layer s3_key with
          | .error e => handlerFail bucket key catalog2 e
          | .ok _ =>
            ⟨.ok ⟨200, "File " ++ key ++ " processed and saved as Parquet."⟩,
             [⟨env.s3_cleansed_layer, s3_key, df_final⟩], [], catalog2⟩

/-! ## Helper lemmas -/

/-- The char list of `".json"`. -/
def jsonChars : List Char := ['.', 'j', 's', 'o', 'n']

/-- The char list of `".parquet"`. -/
def parquetChars : List Char := ['.', 'p', 'a', 'r', 'q', 'u', 'e', 't']

lemma containsJson_cons_false {c : Char} {s : List Char}
    (h : containsJson (c :: s) = false) : containsJson s = false := by
  rw [containsJson.eq_def] at h
  split at h
  · exact absurd h (by simp)
  · simp_all
  · simp_all

lemma replaceJson_of_not_contains : ∀ l : List Char, containsJson l = false →
    replaceJsonChars l = l := by
  intro l
  induction l with
  | nil => intro _; rfl
  | cons c t ih =>
    intro h
    rw [replaceJsonChars.eq_def]
    split
    · next rest heq =>
      rw [heq] at h
      simp [containsJson] at h
    · next c2 rest heq =>
      injection heq with h1 h2
      subst h1; subst h2
      rw [ih (containsJson_cons_false h)]
    · next heq => exact absurd heq (by simp)

lemma no_straddle (c : Char) (s : List Char) (h : containsJson (c :: s) = false) :
    ∀ rest, c :: (s ++ jsonChars) ≠ '.' :: 'j' :: 's' :: 'o' :: 'n' :: rest := by
  intro rest heq
  match s with
  | [] => simp [jsonChars] at heq
  | [a] => simp [jsonChars] at heq
  | [a, b] => simp [jsonChars] at heq
  | [a, b, d] => simp [jsonChars] at heq
  | a :: b :: d :: e :: s2 =>
    simp only [List.cons_append, List.cons.injEq] at heq
    obtain ⟨rfl, rfl, rfl, rfl, rfl, -⟩ := heq
    simp [containsJson] at h

lemma replaceJson_append_json : ∀ stem : List Char, containsJson stem = false →
    replaceJsonChars (stem ++ jsonChars) = stem ++ parquetChars := by
  intro stem
  induction stem with
  | nil => intro _; rfl
  | cons c t ih =>
    intro h
    rw [List.cons_append, replaceJsonChars.eq_def]
    split
    · next rest heq => exact absurd heq (no_straddle c t h rest)
    · next _ _ heq =>
      injection heq with h1 h2
      subst h1
      rw [← h2, ih (containsJson_cons_false h)]
      rfl
    · next heq => exact absurd heq (by simp)

lemma toList_append (a b : String) : (a ++ b).toList = a.toList ++ b.toList := by
  simp [String.toList, String.data_append]

lemma setCol_names (df : DataFrame) (name : String) (c : Column) :
    (setCol df name c).cols.map Prod.fst = df.cols.map Prod.fst := by
  simp only [setCol, List.map_map]
  apply List.map_congr_left
  intro p _
  show (if p.1 == name then (p.1, c) else p).1 = p.1
  split <;> rfl

lemma find?_map_setCol (name : String) (c : Column) (col : String) (h : col ≠ name) :
    ∀ l : List (String × Column),
      (l.map (fun p => if p.1 == name then (p.1, c) else p)).find? (fun p => p.1 == col)
        = l.find? (fun p => p.1 == col) := by
  intro l
  rw [List.find?_map]
  have hpred : ((fun p : String × Column => p.1 == col) ∘
      (fun p => if p.1 == name then (p.1, c) else p)) = fun p => p.1 == col := by
    funext p
    by_cases hn : (p.1 == name) = true <;> simp [Function.comp, hn]
  rw [hpred]
  cases hfind : l.find? (fun p => p.1 == col) with
  | none => rfl
  | some q =>
    have hq := List.find?_some hfind
    simp only [] at hq
    have hqn : (q.1 == name) = false := by
      rw [beq_eq_false_iff_ne, beq_iff_eq.mp hq]
      exact h
    simp [Option.map, hqn]

lemma getCol_setCol_ne (df : DataFrame) (name : String) (c : Column) (col : String)
    (h : col ≠ name) : getCol (setCol df name c) col = getCol df col := by
  simp only [getCol, setCol]
  rw [find?_map_setCol name c col h]

lemma castColumn_ok_shape {df : DataFrame} {column dtype : String} {df2 : DataFrame}
    (h : castColumn df column dtype = .ok df2) :
    df2 = df ∨ ∃ c, df2 = setCol df column c := by
  unfold castColumn at h
  split at h
  · left; exact (Except.ok.injEq .. ▸ h).symm
  · split at h
    · split at h
      · right; exact ⟨_, ((Except.ok.injEq .. ▸ h)).symm⟩
      · exact absurd h (by simp)
    · split at h
      · right; exact ⟨_, ((Except.ok.injEq .. ▸ h)).symm⟩
      · split at h
        · right; exact ⟨_, ((Except.ok.injEq .. ▸ h)).symm⟩
        · split at h
          · right; exact ⟨_, ((Except.ok.injEq .. ▸ h)).symm⟩
          · split at h
            · right; exact ⟨_, ((Except.ok.injEq .. ▸ h)).symm⟩
            · left; exact ((Except.ok.injEq .. ▸ h)).symm

/-- Decidable equality of `Except` results, for evaluating the closed
theorems. -/
instance instDecEqExcept {ε α : Type} [DecidableEq ε] [DecidableEq α] :
    DecidableEq (Except ε α) := fun x y =>
  match x, y with
  | .ok a, .ok b =>
    if h : a = b then .isTrue (by rw [h]) else .isFalse (by simp [h])
  | .error e, .error f =>
    if h : e = f then .isTrue (by rw [h]) else .isFalse (by simp [h])
  | .ok _, .error _ => .isFalse (by simp)
  | .error _, .ok _ => .isFalse (by simp)

/-! ## Concrete fixtures used by the closed theorems -/

/-- An environment binding typical values of the four variables. -/
def envC : Env := ⟨"cleansed", "db_youtube", "raw_statistics", "append"⟩

/-- A one-column flattened batch whose only cell is an explicit JSON null
(`None` in an object-dtype column). -/
def dfNull : DataFrame := ⟨[("a", ⟨.object, [.null]⟩)]⟩

/-- `dfNull` cast against its own inferred schema `[("a", "string")]`. -/
def dfNullCast : DataFrame := ⟨[("a", ⟨.object, [.str "None"]⟩)]⟩

/-- A world whose catalog already holds the target table with schema
`[("a", "string")]`, and whose storage collaborators always succeed,
serving `dfNull` as the flattened document. -/
def wFound : World :=
  ⟨fun _ _ => .ok "bytes", fun _ => .ok dfNull,
   [(("db_youtube", "raw_statistics"), ⟨[("a", "string")], "s3://cleansed/"⟩)],
   fun _ _ => .ok ()⟩

/-- The same world with an empty catalog, so the schema fetch reports
not-found. -/
def wMiss : World :=
  ⟨fun _ _ => .ok "bytes", fun _ => .ok dfNull, [], fun _ _ => .ok ()⟩

/-- The triggering event naming source bucket `raw` and key `data.json`. -/
def eventC : S3Event := ⟨[⟨"raw", "data.json"⟩]⟩

/-! ## Claims -/

/-- Claim C1, counterexample: with an empty catalog the fetch reports
not-found, and the artifact the handler writes carries the raw flattened
batch `dfNull` — even though casting that batch with the inferred schema
it just registered would have produced the different batch `dfNullCast`.
The claim that the serialized batch is always the cast batch is false in
the not-found branch. -/
theorem claim_C1_cx :
    (lambda_handler envC wMiss eventC).puts
      = [⟨"cleansed", "data.parquet", dfNull⟩] ∧
    cast_dataframe_to_glue_schema dfNull (infer_glue_schema_from_dataframe dfNull)
      = .ok dfNullCast ∧
    dfNull ≠ dfNullCast :=
  ⟨rfl, rfl, by decide⟩

/-- Claim C1 as amended: the Caster runs before serialization only in the
branch where the catalog fetch succeeds (with the fetched schema); in the
not-found branch the handler registers the inferred schema and then
serializes the raw flattened batch without casting it. -/
theorem claim_C1 (env : Env) (w : World) (rec0 : S3Record) (rest : List S3Record)
    (content : String) (df : DataFrame)
    (h1 : w.getObject rec0.bucket (unquote_plus rec0.key) = .ok content)
    (h2 : w.readAndNormalize content = .ok df)
    (h3 : w.putObject env.s3_cleansed_layer
        (pyReplaceJsonParquet (unquote_plus rec0.key)) = .ok ()) :
    (∀ sch df2,
      get_glue_table_schema w.catalog env.glue_catalog_db_name
          env.glue_catalog_table_name = .ok sch →
      cast_dataframe_to_glue_schema df sch = .ok df2 →
      (lambda_handler env w ⟨rec0 :: rest⟩).puts
        = [⟨env.s3_cleansed_layer, pyReplaceJsonParquet (unquote_plus rec0.key), df2⟩]) ∧
    (get_glue_table_schema w.catalog env.glue_catalog_db_name
          env.glue_catalog_table_name = .error .entityNotFound →
      (lambda_handler env w ⟨rec0 :: rest⟩).puts
        = [⟨env.s3_cleansed_layer, pyReplaceJsonParquet (unquote_plus rec0.key), df⟩]) := by
  constructor
  · intro sch df2 hget hcast
    simp only [lambda_handler, h1, h2, hget, hcast, h3]
  · intro hget
    have hlook : lookupTable w.catalog env.glue_catalog_db_name
        env.glue_catalog_table_name = none := by
      unfold get_glue_table_schema at hget
      cases hl : lookupTable w.catalog env.glue_catalog_db_name
          env.glue_catalog_table_name with
      | some t => rw [hl] at hget; exact absurd hget (by simp)
      | none => rfl
    simp only [lambda_handler, h1, h2, hget,
      create_glue_table_if_not_exists, hlook, h3]

/-- Witness for C1: in the fetch-success world the written artifact is
the cast batch. -/
theorem claim_C1_wit :
    (lambda_handler envC wFound eventC).puts
      = [⟨"cleansed", "data.parquet", dfNullCast⟩] :=
  (claim_C1 envC wFound ⟨"raw", "data.json"⟩ [] "bytes" dfNull rfl rfl rfl).1
    [("a", "string")] dfNullCast rfl rfl

/-- Claim C2, counterexample: the destination key is computed by
`key.replace(".json", ".parquet")`, which rewrites every occurrence of
`".json"`, not only the extension: the key
`"data/raw.json.archive.json"` maps to
`"data/raw.parquet.archive.parquet"`, not to the claim's
`"data/raw.json.archive.parquet"`; and a key with another extension, such
as `"report.txt"`, keeps it. -/
theorem claim_C2_cx :
    pyReplaceJsonParquet "data/raw.json.archive.json"
      = "data/raw.parquet.archive.parquet" ∧
    ("data/raw.parquet.archive.parquet" : String)
      ≠ "data/raw.json.archive.parquet" ∧
    pyReplaceJsonParquet "report.txt" = "report.txt" :=
  ⟨rfl, by decide, rfl⟩

/-- Claim C2 as amended: every occurrence of the substring `".json"` in
the source key is replaced by `".parquet"`.  When `".json"` occurs
nowhere in the stem, this means: a key `stem ++ ".json"` maps to
`stem ++ ".parquet"` (the claimed extension swap), while a key with no
`".json"` occurrence at all is left unchanged (its extension is not
replaced). -/
theorem claim_C2 (stem : String) (h : containsJson stem.toList = false) :
    pyReplaceJsonParquet (stem ++ ".json") = stem ++ ".parquet" ∧
    pyReplaceJsonParquet stem = stem := by
  constructor
  · show String.mk _ = _
    rw [toList_append]
    have hj : (".json" : String).toList = jsonChars := rfl
    rw [hj, replaceJson_append_json stem.toList h]
    show String.mk _ = String.mk _
    rw [String.toList]
    rfl
  · show String.mk _ = _
    rw [replaceJson_of_not_contains stem.toList h]
    rfl

/-- Witness for C2 at a concrete key whose only `".json"` is its
extension. -/
theorem claim_C2_wit :
    containsJson ("statistics/video".toList) = false ∧
    pyReplaceJsonParquet ("statistics/video" ++ ".json")
      = "statistics/video" ++ ".parquet" :=
  ⟨by decide, (claim_C2 "statistics/video" (by decide)).1⟩

/-- Claim C4 (confirmed): a column cast against target type `boolean`
with input values `[0, 1, "", "x"]` yields exactly
`[false, true, false, true]`, and the boolean cast yields a (non-null)
boolean for every input value whatsoever. -/
theorem claim_C4 :
    cast_dataframe_to_glue_schema
        ⟨[("flag", ⟨.object, [.int 0, .int 1, .str "", .str "x"]⟩)]⟩
        [("flag", "boolean")]
      = .ok ⟨[("flag", ⟨.boolean,
          [.bool false, .bool true, .bool false, .bool true]⟩)]⟩ ∧
    ∀ v, ∃ b, pyBoolCell v = .bool b :=
  ⟨rfl, fun _ => ⟨_, rfl⟩⟩

/-- Claim C6 (confirmed): a successful cast changes no column whose name
the schema does not mention, and neither adds nor removes nor reorders
columns — the name list of the result equals that of the input, so
schema-only columns are never synthesized. -/
theorem claim_C6 : ∀ (sch : List (String × String)) (df df2 : DataFrame),
    cast_dataframe_to_glue_schema df sch = .ok df2 →
    df2.cols.map Prod.fst = df.cols.map Prod.fst ∧
    ∀ col, col ∉ sch.map Prod.fst → getCol df2 col = getCol df col := by
  intro sch
  induction sch with
  | nil =>
    intro df df2 h
    have : df = df2 := by
      simpa [cast_dataframe_to_glue_schema] using h
    subst this
    exact ⟨rfl, fun _ _ => rfl⟩
  | cons entry rest ih =>
    intro df df2 h
    obtain ⟨name, ty⟩ := entry
    rw [cast_dataframe_to_glue_schema] at h
    cases hc : castColumn df name ty with
    | error e => rw [hc] at h; exact absurd h (by simp)
    | ok dfm =>
      rw [hc] at h
      obtain ⟨hnames, hframe⟩ := ih dfm df2 h
      have hshape := castColumn_ok_shape hc
      constructor
      · cases hshape with
        | inl heq => rw [hnames, heq]
        | inr hex => obtain ⟨c, rfl⟩ := hex; rw [hnames, setCol_names]
      · intro col hcol
        simp only [List.map_cons, List.mem_cons] at hcol
        push_neg at hcol
        obtain ⟨hne, hnotin⟩ := hcol
        rw [hframe col hnotin]
        cases hshape with
        | inl heq => rw [heq]
        | inr hex => obtain ⟨c, rfl⟩ := hex; exact getCol_setCol_ne df name c col hne

/-- Witness for C6: casting a two-column batch against a `bigint` schema
for `id` leaves the `extra` column untouched and the column list intact. -/
theorem claim_C6_wit :
    getCol ⟨[("id", ⟨.nullableInt64, [.int 1]⟩), ("extra", ⟨.object, [.str "x"]⟩)]⟩
        "extra"
      = getCol ⟨[("id", ⟨.int64, [.int 1]⟩), ("extra", ⟨.object, [.str "x"]⟩)]⟩
        "extra" :=
  (claim_C6 [("id", "bigint")]
      ⟨[("id", ⟨.int64, [.int 1]⟩), ("extra", ⟨.object, [.str "x"]⟩)]⟩
      ⟨[("id", ⟨.nullableInt64, [.int 1]⟩), ("extra", ⟨.object, [.str "x"]⟩)]⟩
      rfl).2 "extra" (by decide)

/-- Claim C5, counterexample: when the table comes into existence between
the registrar's existence check (first snapshot: empty catalog) and its
create call (second snapshot: table present), `create_table` raises
`AlreadyExistsException`, which `create_glue_table_if_not_exists` does
not catch — the invocation fails instead of being a no-op. -/
theorem claim_C5_cx :
    create_glue_table_if_not_exists []
        [(("db_youtube", "raw_statistics"), ⟨[("id", "bigint")], "s3://other/"⟩)]
        "db_youtube" "raw_statistics" "s3://cleansed/" [("id", "bigint")]
      = .error .alreadyExists :=
  rfl

/-- Claim C5 as amended: registration is idempotent in the
interference-free case — after a first registration succeeds, a second
call with identical arguments (observing one consistent snapshot) finds
the table, changes nothing, and does not fail; but a table appearing
between the existence check and the create call makes the create raise
and fails the invocation. -/
theorem claim_C5 (st : CatalogState) (db tbl loc : String)
    (sch : List (String × String)) (st1 : CatalogState)
    (h : create_glue_table_if_not_exists st st db tbl loc sch = .ok st1) :
    create_glue_table_if_not_exists st1 st1 db tbl loc sch = .ok st1 := by
  unfold create_glue_table_if_not_exists at h ⊢
  cases hl : lookupTable st db tbl with
  | some t =>
    rw [hl] at h
    have : st1 = st := by simpa using (Except.ok.injEq .. ▸ h).symm
    subst this
    rw [hl]
  | none =>
    rw [hl] at h
    have : st1 = ((db, tbl), ⟨sch, loc⟩) :: st := by
      simpa using (Except.ok.injEq .. ▸ h).symm
    subst this
    have hfound : lookupTable (((db, tbl), (⟨sch, loc⟩ : CatalogTable)) :: st) db tbl
        = some ⟨sch, loc⟩ := by
      simp [lookupTable, List.find?]
    rw [hfound]

/-- Witness for C5: registering into an empty catalog and then
re-registering with identical arguments returns the unchanged state. -/
theorem claim_C5_wit :
    create_glue_table_if_not_exists
        [(("db_youtube", "raw_statistics"), ⟨[("id", "bigint")], "s3://cleansed/"⟩)]
        [(("db_youtube", "raw_statistics"), ⟨[("id", "bigint")], "s3://cleansed/"⟩)]
        "db_youtube" "raw_statistics" "s3://cleansed/" [("id", "bigint")]
      = .ok [(("db_youtube", "raw_statistics"),
          ⟨[("id", "bigint")], "s3://cleansed/"⟩)] :=
  claim_C5 [] "db_youtube" "raw_statistics" "s3://cleansed/" [("id", "bigint")] _ rfl

/-- Claim C7 (confirmed): an invocation whose record list is nonempty
either succeeds with exactly one artifact written and a success body
naming the processed key, or fails with no artifact written and the
exception logged together with the source bucket and key before being
re-raised. -/
theorem claim_C7 (env : Env) (w : World) (rec0 : S3Record) (rest : List S3Record) :
    (∀ res, (lambda_handler env w ⟨rec0 :: rest⟩).result = .ok res →
      (lambda_handler env w ⟨rec0 :: rest⟩).puts.length = 1 ∧
      res = ⟨200, "File " ++ unquote_plus rec0.key ++ " processed and saved as Parquet."⟩) ∧
    (∀ e, (lambda_handler env w ⟨rec0 :: rest⟩).result = .error e →
      (lambda_handler env w ⟨rec0 :: rest⟩).puts = [] ∧
      ("Error processing object " ++ unquote_plus rec0.key ++ " from bucket "
        ++ rec0.bucket ++ ".") ∈ (lambda_handler env w ⟨rec0 :: rest⟩).logs) := by
  simp only [lambda_handler]
  split
  · exact ⟨fun res h => absurd h (by simp [handlerFail]),
      fun e h => ⟨rfl, by simp [handlerFail]⟩⟩
  · split
    · exact ⟨fun res h => absurd h (by simp [handlerFail]),
        fun e h => ⟨rfl, by simp [handlerFail]⟩⟩
    · split
      · exact ⟨fun res h => absurd h (by simp [handlerFail]),
          fun e h => ⟨rfl, by simp [handlerFail]⟩⟩
      · split
        · exact ⟨fun res h => absurd h (by simp [handlerFail]),
            fun e h => ⟨rfl, by simp [handlerFail]⟩⟩
        · exact ⟨fun res h => ⟨rfl, by
              simpa using (Except.ok.injEq .. ▸ h).symm⟩,
            fun e h => absurd h (by simp)⟩

/-- Witness for C7: in a fully-successful world the handler writes
exactly one artifact. -/
theorem claim_C7_wit :
    (lambda_handler envC wFound eventC).puts.length = 1 :=
  ((claim_C7 envC wFound ⟨"raw", "data.json"⟩ []).1
    ⟨200, "File data.json processed and saved as Parquet."⟩ rfl).1

/-- Claim C8, counterexample: an explicit `None` null in an object-dtype
column is coerced by the boolean cast to `false`, not to `true` as the
claim states (Python's `bool(None)` is `False`, while only the NaN
missing-value sentinel is truthy). -/
theorem claim_C8_cx :
    cast_dataframe_to_glue_schema ⟨[("b", ⟨.object, [.null]⟩)]⟩ [("b", "boolean")]
      = .ok ⟨[("b", ⟨.boolean, [.bool false]⟩)]⟩ ∧
    cast_dataframe_to_glue_schema ⟨[("b", ⟨.object, [.null]⟩)]⟩ [("b", "boolean")]
      ≠ .ok ⟨[("b", ⟨.boolean, [.bool true]⟩)]⟩ :=
  ⟨rfl, by decide⟩

/-- Claim C8 as amended: the boolean cast sends the NaN missing-value
sentinel to `true` and the Python `None` null to `false`; in either case,
and for every other input, the output is a boolean, never a null — so a
boolean-cast column contains no nulls even when the input did. -/
theorem claim_C8 :
    pyBoolCell .nan = .bool true ∧
    pyBoolCell .null = .bool false ∧
    (∀ v, ∃ b, pyBoolCell v = .bool b) ∧
    cast_dataframe_to_glue_schema ⟨[("b", ⟨.object, [.nan, .null]⟩)]⟩
        [("b", "boolean")]
      = .ok ⟨[("b", ⟨.boolean, [.bool true, .bool false]⟩)]⟩ :=
  ⟨rfl, rfl, fun _ => ⟨_, rfl⟩, rfl⟩

/-- Claim C9 (confirmed): the string cast renders the NaN sentinel as the
literal text `"nan"` and the `None` null as `"None"`, and yields a
non-null string for every input value — a string cast never preserves
nullness. -/
theorem claim_C9 :
    pyStrCell .nan = .str "nan" ∧
    pyStrCell .null = .str "None" ∧
    (∀ v, ∃ s, pyStrCell v = .str s) ∧
    cast_dataframe_to_glue_schema ⟨[("t", ⟨.object, [.nan, .null, .int 3]⟩)]⟩
        [("t", "string")]
      = .ok ⟨[("t", ⟨.object, [.str "nan", .str "None", .str "3"]⟩)]⟩ := by
  refine ⟨rfl, rfl, fun v => ?_, rfl⟩
  cases v <;> exact ⟨_, rfl⟩

/-- Claim C10 (confirmed): the handler reads only `event["Records"][0]` —
its outcome on a multi-record event equals its outcome on the event
containing just the first record, so additional records are ignored — and
an event with an empty record list raises an uncaught index error with
nothing written. -/
theorem claim_C10 (env : Env) (w : World) (rec0 : S3Record) (rest : List S3Record) :
    lambda_handler env w ⟨rec0 :: rest⟩ = lambda_handler env w ⟨[rec0]⟩ ∧
    (lambda_handler env w ⟨[]⟩).result = .error .indexError ∧
    (lambda_handler env w ⟨[]⟩).puts = [] :=
  ⟨rfl, rfl, rfl⟩
